import Mathlib

/-!
Shallow embedding of `src/server.js` (planer email confirmation backend).

The embedding models the delivery pipeline: the attempt ledger
(`sendAttempts` map), the rate limiter (`cleanupAttempts`, `recordAttempt`,
`canSend`), the bounded retry sender (`retrySend`), the failure-queue
background worker (`workerCycle`), and the request orchestrator (`handle`,
the body of `app.post` on the send-code route).

Modelling conventions:
- Time is a `Nat` of milliseconds, passed explicitly where the JS calls
  `Date.now()` (every operation of one request uses one `now`).
- The transport (`transporter.sendMail`) is an oracle `Nat → Bool` giving
  the outcome of the n-th sendMail call of one `retrySend` invocation;
  a rejected promise and a thrown transport error are both `false`
  (the JS catches both identically).
- Operations additionally return a trace of `Event`s in the order the JS
  performs the side effects (sendMail calls, backoff waits, ledger
  recordings), so ordering claims are statable.
- A JS falsy check on a request field (`!email`) is `fieldMissing` on an
  `Option String`: the field is absent or the empty string.
-/

/-- `MAX_ATTEMPTS = 3` — max sends per rate-limit window (server.js line 36). -/
def MAX_ATTEMPTS : Nat := 3

/-- `WINDOW_MS = 15 * 60 * 1000` — 15-minute rate-limit window (line 37). -/
def WINDOW_MS : Nat := 15 * 60 * 1000

/-- `RETRY_LIMIT = 3` — retry attempts for a failed send (line 38). -/
def RETRY_LIMIT : Nat := 3

/-- The backoff delays of `retrySend` (line 61): `[1000, 3000, 7000]` ms. -/
def delays : List Nat := [1000, 3000, 7000]

/-- The `sendAttempts` map: key (email or ip) → array of timestamps. -/
abbrev Ledger := String → List Nat

/-- `cleanupAttempts(key)` (lines 40-46): filter the key's timestamps to
those with `now - t < WINDOW_MS`, persist the filtered array, return it.
Returned as (filtered array, updated map). -/
def cleanupAttempts (now : Nat) (m : Ledger) (key : String) :
    List Nat × Ledger :=
  let arr := m key
  let filtered := arr.filter (fun t => now - t < WINDOW_MS)
  (filtered, fun k => if k = key then filtered else m k)

/-- `recordAttempt(key)` (lines 48-52): cleanup, then append `now` to the
key's array and persist it. -/
def recordAttempt (now : Nat) (m : Ledger) (key : String) : Ledger :=
  let c := cleanupAttempts now m key
  fun k => if k = key then c.1 ++ [now] else c.2 k

/-- `canSend(key)` (lines 54-57): cleanup, then admit iff the live array is
shorter than `MAX_ATTEMPTS`. Returns (decision, updated map) since the
cleanup persists even when the decision is negative. -/
def canSend (now : Nat) (m : Ledger) (key : String) : Bool × Ledger :=
  let c := cleanupAttempts now m key
  (c.1.length < MAX_ATTEMPTS, c.2)

/-- Observable side effects, in the order the JS performs them. -/
inductive Event where
  /-- One `transporter.sendMail` call; `idx` is its 0-based index within
  one `retrySend` invocation. -/
  | sendCall (idx : Nat)
  /-- One `setTimeout` backoff wait of `ms` milliseconds inside `retrySend`. -/
  | waited (ms : Nat)
  /-- One `recordAttempt(key)` ledger recording in the request path. -/
  | recorded (key : String)
  deriving DecidableEq, Repr

/-- Result of `retrySend`: the `ok` flag of the returned object, plus the
trace of sendMail calls and waits it performed. -/
structure RetryOut where
  ok : Bool
  trace : List Event
  deriving DecidableEq, Repr

/-- The `while (attempt < RETRY_LIMIT)` loop of `retrySend` (lines 59-73).
`attempt` is the JS counter of failures so far, `made` the number of
sendMail calls already made. On a failure the JS increments `attempt`,
returns `{ok:false}` if `attempt >= RETRY_LIMIT`, else waits
`delays[min(attempt-1, delays.length-1)]` (with the incremented value,
i.e. `min` of the failed attempt's 0-based index and 2) and loops.
`fuel` bounds the iterations; the loop body runs at most `RETRY_LIMIT`
times (each iteration increments `attempt`, and the loop guard and the
early return both bound `attempt` by `RETRY_LIMIT`), so starting with
`fuel = RETRY_LIMIT` the fuel-exhausted branch is unreachable. -/
def retrySendLoop (transport : Nat → Bool) :
    Nat → Nat → Nat → List Event → RetryOut
  | 0, _, _, acc => ⟨false, acc⟩
  | fuel + 1, attempt, made, acc =>
    if attempt < RETRY_LIMIT then
      let acc2 := acc ++ [Event.sendCall made]
      if transport made then ⟨true, acc2⟩
      else if attempt + 1 ≥ RETRY_LIMIT then ⟨false, acc2⟩
      else
        retrySendLoop transport fuel (attempt + 1) (made + 1)
          (acc2 ++ [Event.waited (delays.getD (min attempt (delays.length - 1)) 0)])
    else ⟨false, acc⟩

/-- `retrySend(mailOptions)` (lines 59-73): up to `RETRY_LIMIT` sequential
sendMail attempts with backoff waits between consecutive attempts. -/
def retrySend (transport : Nat → Bool) : RetryOut :=
  retrySendLoop transport RETRY_LIMIT 0 0 []

/-- A `FAILED_QUEUE` item: `{ email, username, code, attempts }` (line 34). -/
structure QueuedItem where
  email : String
  username : String
  code : String
  attempts : Nat
  deriving DecidableEq, Repr

/-- Result of one background worker cycle: the new queue and the trace of
transport events performed during the cycle. -/
structure CycleOut where
  queue : List QueuedItem
  trace : List Event
  deriving DecidableEq, Repr

/-- One cycle of the `setInterval` background worker (lines 76-101):
in simulation mode do nothing; on an empty queue do nothing; otherwise
shift the oldest item; if its `attempts >= RETRY_LIMIT` drop it;
otherwise call `retrySend` and, if it did not succeed (or threw), push
the item back at the tail with `attempts + 1`. -/
def workerCycle (smtpConfigured : Bool) (transport : Nat → Bool)
    (q : List QueuedItem) : CycleOut :=
  if !smtpConfigured then ⟨q, []⟩
  else
    match q with
    | [] => ⟨[], []⟩
    | item :: rest =>
      if item.attempts ≥ RETRY_LIMIT then ⟨rest, []⟩
      else
        let r := retrySend transport
        if r.ok then ⟨rest, r.trace⟩
        else ⟨rest ++ [{ item with attempts := item.attempts + 1 }], r.trace⟩

/-- Iterate `n` worker cycles (each cycle on the queue the previous one
left; each cycle gets a fresh transport oracle, as the JS transporter's
behaviour is per-call). -/
def runWorker (smtpConfigured : Bool) (transport : Nat → Bool)
    (q : List QueuedItem) : Nat → List QueuedItem
  | 0 => q
  | n + 1 => runWorker smtpConfigured transport
      (workerCycle smtpConfigured transport q).queue n

/-- The request body `{ email, username, code }` (line 104); a field is
`none` when absent from the JSON body. -/
structure Request where
  email : Option String
  username : Option String
  code : Option String
  deriving DecidableEq, Repr

/-- JS falsy test on a request field: absent or the empty string. -/
def fieldMissing : Option String → Bool
  | none => true
  | some s => s == ""

/-- The four outcomes of the send-code route: 200 `{ok:true[,simulated]}`,
202 queued-for-retry, 400 missing-field, 429 rate-limited. -/
inductive Outcome where
  | delivered (simulated : Bool)
  | queued
  | rejectedValidation
  | rejectedRateLimited
  deriving DecidableEq, Repr

/-- The module-level mutable state: `sendAttempts` and `FAILED_QUEUE`. -/
structure ServerState where
  sendAttempts : Ledger
  failedQueue : List QueuedItem

/-- Result of one request: outcome, new state, trace of side effects. -/
structure HandleOut where
  outcome : Outcome
  state : ServerState
  trace : List Event

/-- The body of `app.post` on the send-code route (lines 103-145):
1. validation — `if(!email || !code || !username)` → 400;
2. simulation mode — `if(!SMTP_CONFIGURED)` → log and 200 simulated;
3. rate limit — `if (!canSend(email) || !canSend(ip))` → 429
   (short-circuit: `canSend(ip)` is not evaluated when the email check
   already failed, so only the email key's cleanup persists);
4. `recordAttempt(email); recordAttempt(ip);`
5. `retrySend`: on `ok` → 200 delivered; on `!ok` or a thrown error →
   push `{ email, username, code, attempts: 0 }` and 202 queued. -/
def handle (now : Nat) (smtpConfigured : Bool) (transport : Nat → Bool)
    (req : Request) (ip : String) (st : ServerState) : HandleOut :=
  if fieldMissing req.email || fieldMissing req.code || fieldMissing req.username then
    ⟨Outcome.rejectedValidation, st, []⟩
  else if !smtpConfigured then
    ⟨Outcome.delivered true, st, []⟩
  else
    let email := req.email.getD ""
    let username := req.username.getD ""
    let code := req.code.getD ""
    let cE := canSend now st.sendAttempts email
    if !cE.1 then
      ⟨Outcome.rejectedRateLimited, { st with sendAttempts := cE.2 }, []⟩
    else
      let cI := canSend now cE.2 ip
      if !cI.1 then
        ⟨Outcome.rejectedRateLimited, { st with sendAttempts := cI.2 }, []⟩
      else
        let m3 := recordAttempt now cI.2 email
        let m4 := recordAttempt now m3 ip
        let r := retrySend transport
        let tr := [Event.recorded email, Event.recorded ip] ++ r.trace
        if r.ok then
          ⟨Outcome.delivered false, { st with sendAttempts := m4 }, tr⟩
        else
          ⟨Outcome.queued,
            { sendAttempts := m4,
              failedQueue := st.failedQueue ++ [⟨email, username, code, 0⟩] },
            tr⟩

/-- A transport whose every sendMail call fails. -/
def alwaysFail : Nat → Bool := fun _ => false

/-- A transport whose every sendMail call succeeds. -/
def alwaysOk : Nat → Bool := fun _ => true

/-- Number of `sendCall` events in a trace. -/
def sendCalls (tr : List Event) : Nat :=
  (tr.filter fun e => match e with
    | Event.sendCall _ => true
    | _ => false).length

/-- Empty initial state: no recorded attempts, empty failure queue. -/
def emptyState : ServerState := ⟨fun _ => [], []⟩

/-- A concrete valid request used by concrete scenarios. -/
def validReq : Request := ⟨some "a@b.c", some "bob", some "123456"⟩

/-- State after `i` identical valid requests (same recipient, same caller
ip, all at time 0) against a succeeding transport, starting empty. -/
def reqState : Nat → ServerState
  | 0 => emptyState
  | n + 1 => (handle 0 true alwaysOk validReq "1.2.3.4" (reqState n)).state

/-- A state whose caller-ip key has exhausted the window while the
recipient key is untouched. -/
def ipExhaustedState : ServerState :=
  ⟨fun k => if k = "1.2.3.4" then [0, 0, 0] else [], []⟩

/-- Computed behaviour of `retrySend` against an always-failing transport:
three sendMail calls with the waits `delays[min 0 2] = 1000` and
`delays[min 1 2] = 3000` between consecutive attempts, returning failure. -/
theorem retrySend_alwaysFail :
    retrySend alwaysFail =
      ⟨false, [Event.sendCall 0, Event.waited 1000, Event.sendCall 1,
               Event.waited 3000, Event.sendCall 2]⟩ := rfl

/-- A worker started on an empty queue leaves it empty forever. -/
theorem runWorker_nil (smtp : Bool) (t : Nat → Bool) (n : Nat) :
    runWorker smtp t [] n = [] := by
  induction n with
  | zero => rfl
  | succ n ih => cases smtp <;> simpa [runWorker, workerCycle] using ih

/-- C1 counterexample: a worker cycle on a queued item with
`attemptCount = 0 < RETRY_LIMIT` against an always-failing transport makes
3 sendMail calls (with a 1000 ms backoff wait among them), not exactly one:
the worker calls `retrySend`, the bounded-retry variant. -/
theorem C1_counterexample :
    (⟨"a@b.c", "bob", "123456", 0⟩ : QueuedItem).attempts < RETRY_LIMIT ∧
    sendCalls (workerCycle true alwaysFail
      [⟨"a@b.c", "bob", "123456", 0⟩]).trace = 3 ∧
    Event.waited 1000 ∈ (workerCycle true alwaysFail
      [⟨"a@b.c", "bob", "123456", 0⟩]).trace := by
  refine ⟨by decide, by decide, by decide⟩

/-- C1 (amended): for every cycle of the background worker that processes a
queued item whose attemptCount is below RETRY_LIMIT, the worker makes
exactly one call to `retrySend` — the bounded-retry variant with
inter-attempt backoff delays — so the cycle's transport trace is exactly
`retrySend`'s: one send call when the first attempt succeeds, and
RETRY_LIMIT send calls when every attempt fails. -/
theorem C1_amended (transport : Nat → Bool) (item : QueuedItem)
    (rest : List QueuedItem) (h : item.attempts < RETRY_LIMIT) :
    (workerCycle true transport (item :: rest)).trace =
      (retrySend transport).trace ∧
    (transport 0 = true →
      sendCalls (workerCycle true transport (item :: rest)).trace = 1) ∧
    ((∀ i, transport i = false) →
      sendCalls (workerCycle true transport (item :: rest)).trace =
        RETRY_LIMIT) := by
  have hn : ¬ item.attempts ≥ RETRY_LIMIT := Nat.not_le.mpr h
  have htr : (workerCycle true transport (item :: rest)).trace =
      (retrySend transport).trace := by
    cases hr : (retrySend transport).ok <;>
      simp [workerCycle, hn, hr]
  refine ⟨htr, ?_, ?_⟩
  · intro h0
    rw [htr]
    simp [retrySend, retrySendLoop, RETRY_LIMIT, h0, sendCalls]
  · intro hf
    rw [htr]
    simp [retrySend, retrySendLoop, RETRY_LIMIT, hf, sendCalls, delays]

/-- Witness for C1 (amended) at a concrete item and transport. -/
theorem C1_amended_witness :
    (⟨"a", "b", "c", 0⟩ : QueuedItem).attempts < RETRY_LIMIT ∧
    sendCalls (workerCycle true alwaysFail
      [(⟨"a", "b", "c", 0⟩ : QueuedItem)]).trace = RETRY_LIMIT :=
  ⟨by decide,
   (C1_amended alwaysFail ⟨"a", "b", "c", 0⟩ [] (by decide)).2.2
     (fun _ => rfl)⟩

/-- C2 counterexample: in simulation mode a valid request is answered
Delivered(simulated=true), but nothing is recorded in the attempt ledger —
the recipient's ledger entry stays empty and the trace holds no `recorded`
event (the JS only writes a console log), contradicting the claim that the
attempt is recorded in the Attempt Ledger. -/
theorem C2_counterexample :
    (handle 0 false alwaysFail validReq "ip" emptyState).outcome =
      Outcome.delivered true ∧
    (handle 0 false alwaysFail validReq "ip" emptyState).state.sendAttempts
      "a@b.c" = [] ∧
    (handle 0 false alwaysFail validReq "ip" emptyState).trace = [] := by
  refine ⟨by decide, by decide, by decide⟩

/-- C2 (amended): in simulation mode (transport unconfigured), for every
valid request, handle skips rate limiting and sending and returns Delivered
with simulated=true; contrary to the claim it does not record the attempt
in the Attempt Ledger — the server state is returned unchanged and the
side-effect trace is empty (the attempt is only console-logged). -/
theorem C2_amended (now : Nat) (transport : Nat → Bool) (req : Request)
    (ip : String) (st : ServerState)
    (hE : fieldMissing req.email = false)
    (hC : fieldMissing req.code = false)
    (hU : fieldMissing req.username = false) :
    handle now false transport req ip st =
      ⟨Outcome.delivered true, st, []⟩ := by
  simp [handle, hE, hC, hU]

/-- Witness for C2 (amended) at a concrete valid request. -/
theorem C2_amended_witness :
    fieldMissing validReq.email = false ∧
    fieldMissing validReq.code = false ∧
    fieldMissing validReq.username = false ∧
    handle 0 false alwaysFail validReq "ip" emptyState =
      ⟨Outcome.delivered true, emptyState, []⟩ :=
  ⟨by decide, by decide, by decide,
   C2_amended 0 alwaysFail validReq "ip" emptyState
     (by decide) (by decide) (by decide)⟩

/-- C3: against an always-failing transport, `retrySend` makes exactly
`RETRY_LIMIT = 3` strictly sequential sendMail attempts, waiting
`delays[min attemptIndex (delays.length - 1)]` (from `delays =
[1000, 3000, 7000]` ms) between consecutive attempts — so the waits after
the failed attempts of index 0 and 1 are 1000 ms and 3000 ms — and returns
failure (exhausted) only after all attempts are spent; and whenever the
first success is at attempt index `k < RETRY_LIMIT`, it returns success
immediately after `k + 1` sendMail calls, with no further attempts. -/
theorem C3_boundedRetry (transport : Nat → Bool) :
    ((∀ i, transport i = false) →
      retrySend transport =
        ⟨false,
         [Event.sendCall 0,
          Event.waited (delays.getD (min 0 (delays.length - 1)) 0),
          Event.sendCall 1,
          Event.waited (delays.getD (min 1 (delays.length - 1)) 0),
          Event.sendCall 2]⟩ ∧
      sendCalls (retrySend transport).trace = RETRY_LIMIT) ∧
    (∀ k, k < RETRY_LIMIT → (∀ j, j < k → transport j = false) →
      transport k = true →
      (retrySend transport).ok = true ∧
      sendCalls (retrySend transport).trace = k + 1) := by
  constructor
  · intro hf
    constructor
    · simp [retrySend, retrySendLoop, RETRY_LIMIT, hf, delays]
    · simp [retrySend, retrySendLoop, RETRY_LIMIT, hf, delays, sendCalls]
  · intro k hk hprev hsucc
    have hk3 : k < 3 := hk
    interval_cases k
    · constructor <;>
        simp [retrySend, retrySendLoop, RETRY_LIMIT, hsucc, sendCalls]
    · have h0 : transport 0 = false := hprev 0 (by omega)
      constructor <;>
        simp [retrySend, retrySendLoop, RETRY_LIMIT, h0, hsucc, sendCalls]
    · have h0 : transport 0 = false := hprev 0 (by omega)
      have h1 : transport 1 = false := hprev 1 (by omega)
      constructor <;>
        simp [retrySend, retrySendLoop, RETRY_LIMIT, h0, h1, hsucc, sendCalls]

/-- Witness for C3 at the always-failing and the always-succeeding
transport. -/
theorem C3_boundedRetry_witness :
    ((∀ i, alwaysFail i = false) ∧
      sendCalls (retrySend alwaysFail).trace = RETRY_LIMIT) ∧
    (0 < RETRY_LIMIT ∧ alwaysOk 0 = true ∧
      (retrySend alwaysOk).ok = true ∧
      sendCalls (retrySend alwaysOk).trace = 0 + 1) :=
  ⟨⟨fun _ => rfl,
    ((C3_boundedRetry alwaysFail).1 (fun _ => rfl)).2⟩,
   by decide, rfl,
   ((C3_boundedRetry alwaysOk).2 0 (by decide)
      (fun j hj => absurd hj (Nat.not_lt_zero j)) rfl).1,
   ((C3_boundedRetry alwaysOk).2 0 (by decide)
      (fun j hj => absurd hj (Nat.not_lt_zero j)) rfl).2⟩

/-- C4: against an always-failing transport, each failed worker cycle an
item survives increments its `attempts` by exactly 1 and re-enqueues it at
the queue tail; an item entering with `attempts = 0` survives exactly 3
failed cycles (attempts 1, 2, 3) and is removed on the cycle after the 3rd
failure — that drop cycle performs no transport attempt (empty trace, no
mutation) — and the queue stays empty from then on. -/
theorem C4_queueLifecycle (e u c : String) :
    (∀ (item : QueuedItem) (rest : List QueuedItem),
      item.attempts < RETRY_LIMIT →
      (workerCycle true alwaysFail (item :: rest)).queue =
        rest ++ [{ item with attempts := item.attempts + 1 }]) ∧
    runWorker true alwaysFail [⟨e, u, c, 0⟩] 1 = [⟨e, u, c, 1⟩] ∧
    runWorker true alwaysFail [⟨e, u, c, 0⟩] 2 = [⟨e, u, c, 2⟩] ∧
    runWorker true alwaysFail [⟨e, u, c, 0⟩] 3 = [⟨e, u, c, 3⟩] ∧
    workerCycle true alwaysFail [⟨e, u, c, 3⟩] = ⟨[], []⟩ ∧
    (∀ n, runWorker true alwaysFail [⟨e, u, c, 0⟩] (n + 4) = []) := by
  refine ⟨?_, rfl, rfl, rfl, rfl, ?_⟩
  · intro item rest h
    have hn : ¬ item.attempts ≥ RETRY_LIMIT := Nat.not_le.mpr h
    simp [workerCycle, hn, retrySend_alwaysFail]
  · intro n
    have hstep : runWorker true alwaysFail [⟨e, u, c, 0⟩] (n + 4) =
        runWorker true alwaysFail [] n := rfl
    rw [hstep]
    exact runWorker_nil true alwaysFail n

/-- Witness for C4 at a concrete item. -/
theorem C4_queueLifecycle_witness :
    ((⟨"a", "b", "c", 0⟩ : QueuedItem).attempts < RETRY_LIMIT ∧
      (workerCycle true alwaysFail
        [(⟨"a", "b", "c", 0⟩ : QueuedItem)]).queue =
        [] ++ [{ (⟨"a", "b", "c", 0⟩ : QueuedItem) with
                  attempts := (⟨"a", "b", "c", 0⟩ : QueuedItem).attempts + 1 }]) ∧
    runWorker true alwaysFail [⟨"a", "b", "c", 0⟩] (0 + 4) = [] :=
  ⟨⟨by decide,
    (C4_queueLifecycle "a" "b" "c").1 ⟨"a", "b", "c", 0⟩ [] (by decide)⟩,
   (C4_queueLifecycle "a" "b" "c").2.2.2.2.2 0⟩

/-- C5: `canSend` admits a key iff the number of its recorded timestamps
within the 15-minute window after purging is strictly below
`MAX_ATTEMPTS = 3`; consequently the first 3 identical valid requests for a
recipient are delivered, the 4th within the window is rejected
rate-limited, and once the window has passed (`now = WINDOW_MS` after the
recorded attempts) a subsequent request is admitted again; and a request
whose recipient key is fresh is still rejected when the caller-ip key is
exhausted — both keys must pass. -/
theorem C5_rateLimit :
    (∀ (now : Nat) (m : Ledger) (key : String),
      ((canSend now m key).1 = true ↔
        ((m key).filter (fun t => now - t < WINDOW_MS)).length <
          MAX_ATTEMPTS)) ∧
    (∀ i, i < MAX_ATTEMPTS →
      (handle 0 true alwaysOk validReq "1.2.3.4" (reqState i)).outcome =
        Outcome.delivered false) ∧
    (handle 0 true alwaysOk validReq "1.2.3.4"
      (reqState MAX_ATTEMPTS)).outcome = Outcome.rejectedRateLimited ∧
    (handle WINDOW_MS true alwaysOk validReq "1.2.3.4"
      (reqState MAX_ATTEMPTS)).outcome = Outcome.delivered false ∧
    (canSend 0 ipExhaustedState.sendAttempts "a@b.c").1 = true ∧
    (handle 0 true alwaysOk validReq "1.2.3.4" ipExhaustedState).outcome =
      Outcome.rejectedRateLimited := by
  refine ⟨?_, ?_, by decide, by decide, by decide, by decide⟩
  · intro now m key
    simp [canSend, cleanupAttempts]
  · intro i hi
    have hi3 : i < 3 := hi
    interval_cases i <;> decide

/-- Witness for C5 at the first request of the rate-limit scenario. -/
theorem C5_rateLimit_witness :
    0 < MAX_ATTEMPTS ∧
    (handle 0 true alwaysOk validReq "1.2.3.4" (reqState 0)).outcome =
      Outcome.delivered false :=
  ⟨by decide, C5_rateLimit.2.1 0 (by decide)⟩

/-- C6: a request in which any of the three required fields is absent or
empty is rejected as a validation error, with the server state unchanged
and no rate-limit, recording or transport side effect (empty trace),
whatever the mode and transport. -/
theorem C6_validation (now : Nat) (smtp : Bool) (transport : Nat → Bool)
    (req : Request) (ip : String) (st : ServerState)
    (h : (fieldMissing req.email || fieldMissing req.code ||
          fieldMissing req.username) = true) :
    handle now smtp transport req ip st =
      ⟨Outcome.rejectedValidation, st, []⟩ := by
  simp [handle, h]

/-- Witness for C6 at the empty request body. -/
theorem C6_validation_witness :
    (fieldMissing (Request.mk none none none).email ||
      fieldMissing (Request.mk none none none).code ||
      fieldMissing (Request.mk none none none).username) = true ∧
    handle 0 true alwaysFail ⟨none, none, none⟩ "ip" emptyState =
      ⟨Outcome.rejectedValidation, emptyState, []⟩ :=
  ⟨by decide,
   C6_validation 0 true alwaysFail ⟨none, none, none⟩ "ip" emptyState
     (by decide)⟩

/-- C7: for every admitted request (valid fields, normal mode, both
rate-limit keys pass) and every transport behaviour, handle returns one of
the two non-fault outcomes: Delivered when `retrySend` succeeds (queue
unchanged), and Queued when it is exhausted or the transport threw
(modelled identically to exhaustion, as the JS catch does), in which case
exactly one new item with `attempts = 0` is pushed at the failure-queue
tail — no transport error propagates as an unhandled fault. -/
theorem C7_noFaultPropagation (now : Nat) (transport : Nat → Bool)
    (req : Request) (ip : String) (st : ServerState)
    (hE : fieldMissing req.email = false)
    (hC : fieldMissing req.code = false)
    (hU : fieldMissing req.username = false)
    (hAdmE : (canSend now st.sendAttempts (req.email.getD "")).1 = true)
    (hAdmI : (canSend now
      (canSend now st.sendAttempts (req.email.getD "")).2 ip).1 = true) :
    ((retrySend transport).ok = true →
      (handle now true transport req ip st).outcome =
        Outcome.delivered false ∧
      (handle now true transport req ip st).state.failedQueue =
        st.failedQueue) ∧
    ((retrySend transport).ok = false →
      (handle now true transport req ip st).outcome = Outcome.queued ∧
      (handle now true transport req ip st).state.failedQueue =
        st.failedQueue ++
          [⟨req.email.getD "", req.username.getD "", req.code.getD "", 0⟩]) ∧
    ((handle now true transport req ip st).outcome =
        Outcome.delivered false ∨
      (handle now true transport req ip st).outcome = Outcome.queued) := by
  refine ⟨?_, ?_, ?_⟩
  · intro hr
    constructor <;> simp [handle, hE, hC, hU, hAdmE, hAdmI, hr]
  · intro hr
    constructor <;> simp [handle, hE, hC, hU, hAdmE, hAdmI, hr]
  · cases hr : (retrySend transport).ok
    · right; simp [handle, hE, hC, hU, hAdmE, hAdmI, hr]
    · left; simp [handle, hE, hC, hU, hAdmE, hAdmI, hr]

/-- Witness for C7: an admitted request against an always-failing transport
is queued with a fresh item, not faulted. -/
theorem C7_noFaultPropagation_witness :
    (fieldMissing validReq.email = false ∧
      (canSend 0 emptyState.sendAttempts (validReq.email.getD "")).1 = true) ∧
    (handle 0 true alwaysFail validReq "ip" emptyState).outcome =
      Outcome.queued ∧
    (handle 0 true alwaysFail validReq "ip" emptyState).state.failedQueue =
      emptyState.failedQueue ++
        [⟨validReq.email.getD "", validReq.username.getD "",
          validReq.code.getD "", 0⟩] :=
  ⟨⟨by decide, by decide⟩,
   (C7_noFaultPropagation 0 alwaysFail validReq "ip" emptyState
      (by decide) (by decide) (by decide) (by decide) (by decide)).2.1
     (by decide)⟩

/-- C8: for every valid request in normal mode: when both admission checks
pass, the side-effect trace is exactly the two ledger recordings — the
recipient key then the caller-ip key — followed by the bounded retry
sender's trace (so recording precedes every sendMail call and happens for
every transport behaviour, i.e. at admission time, not at send-success
time), and the final ledger is `recordAttempt` of both keys over the
purged map; when either check fails, the request is rejected rate-limited
with an empty trace — no attempt is recorded. -/
theorem C8_recordAtAdmission (now : Nat) (transport : Nat → Bool)
    (req : Request) (ip : String) (st : ServerState)
    (hE : fieldMissing req.email = false)
    (hC : fieldMissing req.code = false)
    (hU : fieldMissing req.username = false) :
    (((canSend now st.sendAttempts (req.email.getD "")).1 = true ∧
      (canSend now
        (canSend now st.sendAttempts (req.email.getD "")).2 ip).1 = true) →
      (handle now true transport req ip st).trace =
        [Event.recorded (req.email.getD ""), Event.recorded ip] ++
          (retrySend transport).trace ∧
      (handle now true transport req ip st).state.sendAttempts =
        recordAttempt now
          (recordAttempt now
            (canSend now
              (canSend now st.sendAttempts (req.email.getD "")).2 ip).2
            (req.email.getD ""))
          ip) ∧
    (((canSend now st.sendAttempts (req.email.getD "")).1 = false ∨
      (canSend now
        (canSend now st.sendAttempts (req.email.getD "")).2 ip).1 = false) →
      (handle now true transport req ip st).outcome =
        Outcome.rejectedRateLimited ∧
      (handle now true transport req ip st).trace = []) := by
  constructor
  · rintro ⟨h1, h2⟩
    cases hr : (retrySend transport).ok <;>
      simp [handle, hE, hC, hU, h1, h2, hr]
  · intro hrej
    cases hcE : (canSend now st.sendAttempts (req.email.getD "")).1
    · constructor <;> simp [handle, hE, hC, hU, hcE]
    · have h2 : (canSend now
          (canSend now st.sendAttempts (req.email.getD "")).2 ip).1 =
          false := by
        rcases hrej with h | h
        · rw [hcE] at h; exact absurd h (by simp)
        · exact h
      constructor <;> simp [handle, hE, hC, hU, hcE, h2]

/-- Witness for C8: an admitted request records both keys before the single
successful sendMail call. -/
theorem C8_recordAtAdmission_witness :
    (fieldMissing validReq.email = false ∧
      (canSend 0 emptyState.sendAttempts (validReq.email.getD "")).1 =
        true) ∧
    (handle 0 true alwaysOk validReq "ip" emptyState).trace =
      [Event.recorded (validReq.email.getD ""), Event.recorded "ip"] ++
        (retrySend alwaysOk).trace :=
  ⟨⟨by decide, by decide⟩,
   ((C8_recordAtAdmission 0 alwaysOk validReq "ip" emptyState
       (by decide) (by decide) (by decide)).1
     ⟨by decide, by decide⟩).1⟩

/-- C9: in simulation mode, every valid request returns Delivered with
simulated=true regardless of the rate-limit state (any ledger), the state
— failure queue included — is returned untouched with an empty side-effect
trace, and a worker cycle performs no work at all: the queue and trace it
produces are the input queue and the empty trace, for every queue. -/
theorem C9_simulationFrame (now : Nat) (transport : Nat → Bool)
    (req : Request) (ip : String) (st : ServerState)
    (hE : fieldMissing req.email = false)
    (hC : fieldMissing req.code = false)
    (hU : fieldMissing req.username = false) :
    (handle now false transport req ip st).outcome =
      Outcome.delivered true ∧
    (handle now false transport req ip st).state.failedQueue =
      st.failedQueue ∧
    (handle now false transport req ip st).state.sendAttempts =
      st.sendAttempts ∧
    (handle now false transport req ip st).trace = [] ∧
    (∀ q, workerCycle false transport q = ⟨q, []⟩) := by
  refine ⟨?_, ?_, ?_, ?_, fun q => ?_⟩ <;>
    simp [handle, workerCycle, hE, hC, hU]

/-- Witness for C9 at a concrete valid request and a rate-limit-exhausted
ledger with a non-empty failure queue. -/
theorem C9_simulationFrame_witness :
    fieldMissing validReq.email = false ∧
    (handle 0 false alwaysFail validReq "1.2.3.4"
      ⟨ipExhaustedState.sendAttempts, [⟨"x", "y", "z", 1⟩]⟩).outcome =
      Outcome.delivered true ∧
    (handle 0 false alwaysFail validReq "1.2.3.4"
      ⟨ipExhaustedState.sendAttempts, [⟨"x", "y", "z", 1⟩]⟩).state.failedQueue =
      [⟨"x", "y", "z", 1⟩] ∧
    workerCycle false alwaysFail [⟨"x", "y", "z", 1⟩] =
      ⟨[⟨"x", "y", "z", 1⟩], []⟩ := by
  have h := C9_simulationFrame 0 alwaysFail validReq "1.2.3.4"
    ⟨ipExhaustedState.sendAttempts, [⟨"x", "y", "z", 1⟩]⟩
    (by decide) (by decide) (by decide)
  exact ⟨by decide, h.1, h.2.1, h.2.2.2.2 [⟨"x", "y", "z", 1⟩]⟩

/-- C10: validation precedes the simulation-mode check — a request missing
a required field is rejected as a validation error even with the transport
unconfigured, and is never answered Delivered(simulated=true). -/
theorem C10_validationBeforeSimulation (now : Nat) (transport : Nat → Bool)
    (req : Request) (ip : String) (st : ServerState)
    (h : (fieldMissing req.email || fieldMissing req.code ||
          fieldMissing req.username) = true) :
    (handle now false transport req ip st).outcome =
      Outcome.rejectedValidation ∧
    (handle now false transport req ip st).outcome ≠
      Outcome.delivered true := by
  constructor <;> simp [handle, h]

/-- Witness for C10 at a request whose recipient is the empty string, in
simulation mode. -/
theorem C10_validationBeforeSimulation_witness :
    (fieldMissing (Request.mk (some "") (some "bob") (some "1")).email ||
      fieldMissing (Request.mk (some "") (some "bob") (some "1")).code ||
      fieldMissing (Request.mk (some "") (some "bob") (some "1")).username) =
      true ∧
    (handle 0 false alwaysFail ⟨some "", some "bob", some "1"⟩ "ip"
      emptyState).outcome = Outcome.rejectedValidation :=
  ⟨by decide,
   (C10_validationBeforeSimulation 0 alwaysFail
      ⟨some "", some "bob", some "1"⟩ "ip" emptyState (by decide)).1⟩
